/-
Verification of the SMART Tag integration core: the route aggregation
algorithm (config_flow.py) and the API client (api.py), shallowly
embedded in Lean 4.

Modeling conventions:
- Python datetimes are modeled as integer seconds on a local wall-clock
  axis (the parse format "%m/%d/%Y %H:%M:%S" yields whole seconds, so
  microseconds are always zero).  `datetime.time()` extracts the
  time-of-day, modeled as `t % 86400`; `timedelta.seconds` of
  `end - start` equals `(end - start) % 86400` for whole-second values
  (Python timedelta normalizes the seconds field into [0, 86400)).
- Python float arithmetic in the running mean is modeled over `Rat`;
  every concrete value checked here is exactly representable.
- The aiohttp session is modeled by the outcome it produces for each
  successive request of one operation (`SessionOutcome`); Python
  exceptions that can cross the relevant frames are the constructors of
  `PyExc`.  Fallible code returns `Except PyExc`.
-/
import Mathlib

namespace SmartTag

/-! ## Data model (data.py), restricted to the fields the core logic reads -/

/-- data.py RideEndpoint: either the start or the end of a ride. -/
structure RideEndpoint where
  time : Int
  lat : Rat
  long : Rat
deriving DecidableEq, Repr

/-- data.py Ride: a single bus ride. -/
structure Ride where
  id : Int
  bus_id : String
  start : RideEndpoint
  end_ : RideEndpoint
  driver : String
  shift : String
  route_id : Int
  route_name : String
deriving DecidableEq, Repr

/-- Python datetime.time() on a whole-second local datetime: seconds past midnight. -/
def timeOfDay (t : Int) : Int := t % 86400

/-- Python `(end - start).seconds`: the normalized seconds field of the timedelta. -/
def rideDurSecs (r : Ride) : Int := (r.end_.time - r.start.time) % 86400

/-! ## Route aggregator (config_flow.py) -/

/-- config_flow.py Route: per-route polling data. -/
structure Route where
  embark_start : Int
  embark_end : Int
  length : Rat
  debark_end : Int
  id : Int
  name : String
deriving DecidableEq, Repr

/-- The four loop accumulators of average_route_polling_data. -/
structure AggState where
  embark_start_min : Int
  embark_end_max : Int
  debark_end_max : Int
  length_secs : Rat
deriving DecidableEq, Repr

/-- One iteration of the `for i, ride in enumerate(data)` loop. -/
def aggStep (i : Nat) (st : AggState) (r : Ride) : AggState :=
  { embark_start_min := min st.embark_start_min (timeOfDay r.start.time)
    embark_end_max := max st.embark_end_max (timeOfDay (r.start.time + 5 * 60))
    debark_end_max := max st.debark_end_max (timeOfDay (r.end_.time + 10 * 60))
    length_secs := st.length_secs + (((rideDurSecs r : Int) : Rat) - st.length_secs) / (i + 1) }

/-- The whole loop, threading the enumerate index. -/
def aggLoop : Nat → AggState → List Ride → AggState
  | _, st, [] => st
  | i, st, r :: rest => aggLoop (i + 1) (aggStep i st r) rest

/-- Loop accumulator initial values: time(23,59,59), time(0,0), time(0,0), 0. -/
def initAggState : AggState := { embark_start_min := 86399, embark_end_max := 0, debark_end_max := 0, length_secs := 0 }

/-- config_flow.py average_route_polling_data.  `data[0]` raises IndexError on an
empty list, modeled by `none`. -/
def average_route_polling_data (data : List Ride) : Option Route :=
  let st := aggLoop 0 initAggState data
  match data with
  | [] => none
  | r0 :: _ =>
    some { embark_start := st.embark_start_min
           embark_end := st.embark_end_max
           length := st.length_secs / 60
           debark_end := st.debark_end_max
           id := r0.route_id
           name := r0.route_name }

/-- One iteration of the grouping loop in async_step_choose_times: append the
ride to the entry for its route_id, or create a new entry at the end
(Python dicts preserve insertion order). -/
def addRide (groups : List (Int × List Ride)) (r : Ride) : List (Int × List Ride) :=
  match groups with
  | [] => [(r.route_id, [r])]
  | (k, rs) :: rest =>
    if k = r.route_id then (k, rs ++ [r]) :: rest
    else (k, rs) :: addRide rest r

/-- The `routes` dict built by async_step_choose_times, as an ordered
association list. -/
def groupRides (rides : List Ride) : List (Int × List Ride) :=
  rides.foldl addRide []

/-- `avg_routes = [average_route_polling_data(rides) for rides in routes.values()]` -/
def avgRoutes (rides : List Ride) : List (Option Route) :=
  (groupRides rides).map (fun g => average_route_polling_data g.2)

/-- Association-list lookup into the grouped rides (dict access by key). -/
def findGroup (k : Int) : List (Int × List Ride) → Option (List Ride)
  | [] => none
  | (k2, rs) :: rest => if k2 = k then some rs else findGroup k rest

/-- The RouteWindow produced for a given route_id, if any. -/
def windowFor (k : Int) (rides : List Ride) : Option Route :=
  (findGroup k (groupRides rides)).bind average_route_polling_data

/-- All Route fields except the name (used to state order-independence). -/
def routeCore (w : Route) : Int × Int × Rat × Int × Int :=
  (w.embark_start, w.embark_end, w.length, w.debark_end, w.id)

/-! ## API client (api.py) -/

/-- The Python exceptions that can cross the frames of api.py.  The three
SmartTag constructors mirror the class hierarchy SmartTagApiError /
SmartTagApiNetworkError / SmartTagApiAuthError; `clientError` stands for
aiohttp.ClientError and its subclasses, which includes the
ClientResponseError raised by response.raise_for_status(); `otherError`
stands for any other exception (KeyError, JSON decode failures, ...). -/
inductive PyExc where
  | timeoutError
  | clientError (msg : String)
  | gaierror (msg : String)
  | smartTagApiError (msg : String)
  | smartTagNetworkError (msg : String)
  | smartTagAuthError (msg : String)
  | otherError (msg : String)
deriving DecidableEq, Repr

/-- Whether the exception is one of the three SmartTag error classes
(isinstance SmartTagApiError, the base of all three). -/
def isSmartTagError : PyExc → Bool
  | .smartTagApiError _ => true
  | .smartTagNetworkError _ => true
  | .smartTagAuthError _ => true
  | _ => false

/-- String rendering used when an exception is interpolated into an f-string. -/
def excMessage : PyExc → String
  | .timeoutError => "TimeoutError"
  | .clientError m => m
  | .gaierror m => m
  | .smartTagApiError m => m
  | .smartTagNetworkError m => m
  | .smartTagAuthError m => m
  | .otherError m => m

/-- A response, reduced to the fields api.py reads: status code, whether
`await response.json()` succeeds, the json "token" field if present, and
the raw refreshToken cookie value if present.  (Student and ride record
parsing is not read by any claim and is elided to `jsonOk`.) -/
structure HttpResponse where
  status : Nat
  jsonOk : Bool
  token : Option String
  refreshCookie : Option String
deriving DecidableEq, Repr

/-- What the aiohttp session does for one request: return a response, or
raise at the transport layer. -/
inductive SessionOutcome where
  | response (r : HttpResponse)
  | raiseTimeout
  | raiseClientError (msg : String)
  | raiseGaierror (msg : String)
  | raiseOther (msg : String)
deriving DecidableEq, Repr

/-- One HTTP request as issued by the client, reduced to the fields the
spec talks about. -/
structure HttpRequest where
  method : String
  path : String
  authHeader : Option String
  jsonBody : List (String × String)
  query : List (String × String)
deriving DecidableEq, Repr

/-- api.py _raise_response_error: 401/403 raise SmartTagApiAuthError; 400 and
404 are passed through; any other non-success status makes
response.raise_for_status() raise aiohttp.ClientResponseError, which is a
subclass of aiohttp.ClientError. -/
def raiseResponseError (status : Nat) : Option PyExc :=
  if status = 401 ∨ status = 403 then
    some (.smartTagAuthError "invalid or expired credentials")
  else if status ≠ 400 ∧ status ≠ 404 ∧ 400 ≤ status then
    some (.clientError "raise_for_status")
  else none

/-- The try-block of api.py _api_wrapper: perform the request and apply
_raise_response_error to the response. -/
def apiWrapperTry (o : SessionOutcome) : Except PyExc HttpResponse :=
  match o with
  | .response r =>
    match raiseResponseError r.status with
    | some e => .error e
    | none => .ok r
  | .raiseTimeout => .error .timeoutError
  | .raiseClientError m => .error (.clientError m)
  | .raiseGaierror m => .error (.gaierror m)
  | .raiseOther m => .error (.otherError m)

/-- The except-clauses of _api_wrapper, applied to any exception that escapes
the try-block: TimeoutError and aiohttp.ClientError / socket.gaierror become
SmartTagApiNetworkError, and the final `except Exception` catch-all wraps
everything else — including the SmartTagApiAuthError raised by
_raise_response_error — into a plain SmartTagApiError. -/
def wrapException (e : PyExc) : PyExc :=
  match e with
  | .timeoutError => .smartTagNetworkError ("Timeout error fetching information - " ++ excMessage e)
  | .clientError _ => .smartTagNetworkError ("Error fetching information - " ++ excMessage e)
  | .gaierror _ => .smartTagNetworkError ("Error fetching information - " ++ excMessage e)
  | _ => .smartTagApiError ("Something really wrong happened! - " ++ excMessage e)

/-- api.py _api_wrapper: the try-block guarded by the except-clauses. -/
def apiWrapper (o : SessionOutcome) : Except PyExc HttpResponse :=
  match apiWrapperTry o with
  | .ok r => .ok r
  | .error e => .error (wrapException e)

/-- The mutable token fields of SmartTagApiClient. -/
structure ClientState where
  access_token : Option String
  refresh_token : Option String
deriving DecidableEq, Repr

/-- Outcome of one client operation: the Python return value or the raised
exception, the client token state afterwards, and the HTTP requests issued,
in order. -/
structure OpResult (α : Type) where
  result : Except PyExc α
  state : ClientState
  requests : List HttpRequest

/-- Hex digit value, for percent-decoding. -/
def hexVal (c : Char) : Option Nat :=
  if ('0' ≤ c ∧ c ≤ '9') then some (c.toNat - '0'.toNat)
  else if ('a' ≤ c ∧ c ≤ 'f') then some (c.toNat - 'a'.toNat + 10)
  else if ('A' ≤ c ∧ c ≤ 'F') then some (c.toNat - 'A'.toNat + 10)
  else none

/-- Percent-decoding on characters: urllib.parse.unquote, with invalid
percent sequences left untouched. -/
def unquoteAux : List Char → List Char
  | [] => []
  | '%' :: a :: b :: rest =>
    match hexVal a, hexVal b with
    | some x, some y => Char.ofNat (16 * x + y) :: unquoteAux rest
    | _, _ => '%' :: a :: b :: unquoteAux rest
  | c :: rest => c :: unquoteAux rest

/-- urllib.parse.unquote, modeled at character level. -/
def unquote (s : String) : String := String.mk (unquoteAux s.data)

/-- The request issued by login. -/
def loginRequest (email password : String) : HttpRequest :=
  { method := "POST", path := "user/login", authHeader := none
    jsonBody := [("username", email), ("password", password)], query := [] }

/-- api.py SmartTagApiClient.login. -/
def login (_st : ClientState) (email password : String) (o : SessionOutcome) : OpResult Unit :=
  let st1 : ClientState := { access_token := none, refresh_token := none }
  let reqs := [loginRequest email password]
  match apiWrapper o with
  | .error e => { result := .error e, state := st1, requests := reqs }
  | .ok r =>
    if r.status = 400 then
      { result := .error (.smartTagAuthError "invalid email or password"), state := st1, requests := reqs }
    else if r.jsonOk = false then
      { result := .error (.otherError "response.json() failed"), state := st1, requests := reqs }
    else
      let st2 := match r.refreshCookie with
        | some c => { st1 with refresh_token := some (unquote c) }
        | none => st1
      match r.token with
      | none => { result := .error (.otherError "KeyError: token"), state := st2, requests := reqs }
      | some t => { result := .ok (), state := { st2 with access_token := some t }, requests := reqs }

/-- The request issued by refresh_access_token. -/
def refreshRequest (tok rtok : String) : HttpRequest :=
  { method := "POST", path := "user/refresh", authHeader := none
    jsonBody := [("token", tok), ("refreshToken", rtok)], query := [] }

/-- api.py SmartTagApiClient.refresh_access_token.  `response.ok` is aiohttp
shorthand for status < 400. -/
def refreshAccessToken (st : ClientState) (o : SessionOutcome) : OpResult Unit :=
  match st.access_token, st.refresh_token with
  | some tok, some rtok =>
    let reqs := [refreshRequest tok rtok]
    match apiWrapper o with
    | .error e => { result := .error e, state := st, requests := reqs }
    | .ok r =>
      if 400 ≤ r.status then
        { result := .error (.smartTagAuthError "need reauthentication"), state := st, requests := reqs }
      else if r.jsonOk = false then
        { result := .error (.otherError "response.json() failed"), state := st, requests := reqs }
      else
        let st2 := match r.refreshCookie with
          | some c => { st with refresh_token := some (unquote c) }
          | none => st
        match r.token with
        | none => { result := .error (.otherError "KeyError: token"), state := st2, requests := reqs }
        | some t => { result := .ok (), state := { st2 with access_token := some t }, requests := reqs }
  | _, _ => { result := .error (.smartTagAuthError "not authenticated"), state := st, requests := [] }

/-- The Authorization header _authed_api_wrapper attaches: present exactly
when an access token is held. -/
def bearerHeader (st : ClientState) : Option String :=
  st.access_token.map (fun t => "Bearer " ++ t)

/-- api.py _authed_api_wrapper.  `env n` is what the session does for the
n-th HTTP call of this operation.  Only SmartTagApiAuthError from the first
_api_wrapper call is caught; the handler refreshes and retries once, and any
error of the refresh or of the retry propagates. -/
def authedApiWrapper (st : ClientState) (env : Nat → SessionOutcome)
    (method path : String) (body query : List (String × String)) : OpResult HttpResponse :=
  let req1 : HttpRequest :=
    { method := method, path := path, authHeader := bearerHeader st, jsonBody := body, query := query }
  match apiWrapper (env 0) with
  | .ok r => { result := .ok r, state := st, requests := [req1] }
  | .error e =>
    match e with
    | .smartTagAuthError _ =>
      let rres := refreshAccessToken st (env 1)
      match rres.result with
      | .error e2 => { result := .error e2, state := rres.state, requests := req1 :: rres.requests }
      | .ok _ =>
        let req2 : HttpRequest :=
          { method := method, path := path, authHeader := bearerHeader rres.state, jsonBody := body, query := query }
        match apiWrapper (env 2) with
        | .ok r => { result := .ok r, state := rres.state, requests := req1 :: rres.requests ++ [req2] }
        | .error e3 => { result := .error e3, state := rres.state, requests := req1 :: rres.requests ++ [req2] }
    | _ => { result := .error e, state := st, requests := [req1] }

/-- api.py SmartTagApiClient.get_students.  Parsing of the student records
is elided to the success of response.json(). -/
def getStudents (st : ClientState) (env : Nat → SessionOutcome) : OpResult Unit :=
  match st.access_token with
  | none => { result := .error (.smartTagAuthError "not authenticated"), state := st, requests := [] }
  | some _ =>
    let res := authedApiWrapper st env "GET" "parent/all-students" [] []
    match res.result with
    | .error e => { result := .error e, state := res.state, requests := res.requests }
    | .ok r =>
      if r.jsonOk then { result := .ok (), state := res.state, requests := res.requests }
      else { result := .error (.otherError "response.json() failed"), state := res.state, requests := res.requests }

/-- api.py SmartTagApiClient.get_rides.  Parsing of the ride records is
elided to the success of response.json(). -/
def getRides (st : ClientState) (env : Nat → SessionOutcome)
    (studentId : String) (limit : Int) : OpResult Unit :=
  match st.access_token with
  | none => { result := .error (.smartTagAuthError "not authenticated"), state := st, requests := [] }
  | some _ =>
    let q := [("studentid", studentId), ("pageIndex", "0"), ("pageSize", toString limit)]
    let res := authedApiWrapper st env "GET" "student/riding-activity" [] q
    match res.result with
    | .error e => { result := .error e, state := res.state, requests := res.requests }
    | .ok r =>
      if r.jsonOk then { result := .ok (), state := res.state, requests := res.requests }
      else { result := .error (.otherError "response.json() failed"), state := res.state, requests := res.requests }

/-! ## Concrete fixtures used by the tests below -/

/-- Build a ride with the fields relevant to aggregation. -/
def mkRide (ident : Int) (s e : Int) (rid : Int) (rname : String) : Ride :=
  { id := ident, bus_id := "bus", start := { time := s, lat := 0, long := 0 }
    end_ := { time := e, lat := 0, long := 0 }, driver := "driver", shift := "AM"
    route_id := rid, route_name := rname }

/-- Ride on route 1 from 08:00:00 to 08:20:00 of day 0. -/
def c5ride1 : Ride := mkRide 1 28800 30000 1 "Route 1"

/-- Ride on route 1 from 08:10:00 to 08:25:00 of day 0. -/
def c5ride2 : Ride := mkRide 2 29400 30300 1 "Route 1"

/-- Ride on route 7 with route name A. -/
def c6rideA : Ride := mkRide 1 28800 30000 7 "Name A"

/-- Ride on route 7, identical times, route name B. -/
def c6rideB : Ride := mkRide 2 28800 30000 7 "Name B"

/-- Ride on a second route, used to exercise grouping. -/
def c4ride3 : Ride := mkRide 3 1000 2000 2 "Route 2"

/-- Ride whose end timestamp precedes its start by 1200 seconds. -/
def c9ride : Ride := mkRide 4 30000 28800 3 "Route 3"

/-- A client holding both tokens. -/
def stAuthed : ClientState := { access_token := some "oldtok", refresh_token := some "oldrefresh" }

/-- Session behavior: first request is rejected with 401; a successful
refresh response and a successful retry response stand ready after it. -/
def c1Env : Nat → SessionOutcome := fun n =>
  match n with
  | 0 => .response { status := 401, jsonOk := true, token := none, refreshCookie := none }
  | 1 => .response { status := 200, jsonOk := true, token := some "newtok", refreshCookie := none }
  | _ => .response { status := 200, jsonOk := true, token := none, refreshCookie := none }

/-- Session behavior for the no-token counterexample; never actually consulted. -/
def c7Env : Nat → SessionOutcome := fun _ => .raiseTimeout

/-! ## Theorems -/

/-- C5: on two same-day route-1 rides 08:00:00-08:20:00 and 08:10:00-08:25:00,
the aggregator returns embarkStart 08:00:00 (28800 s), embarkEnd 08:15:00
(29700 s), debarkEnd 08:35:00 (30900 s) and averageLengthMinutes 17.5, the
mean being produced by the incremental update over durations in seconds. -/
theorem c5_concrete_two_ride_window :
    average_route_polling_data [c5ride1, c5ride2] =
      some { embark_start := 28800, embark_end := 29700, length := 35 / 2
             debark_end := 30900, id := 1, name := "Route 1" } := by
  norm_num [average_route_polling_data, aggLoop, aggStep, initAggState, c5ride1, c5ride2,
    mkRide, rideDurSecs, timeOfDay]

/-- C1 (code behavior at the failing input): with both tokens held and the
server answering the first authenticated request with 401 — a successful
refresh and retry standing ready — get_students raises the generic
SmartTagApiError after exactly one HTTP request: the AuthError raised for
the 401 is swallowed by the catch-all in _api_wrapper and re-raised as
SmartTagApiError, which the except-SmartTagApiAuthError handler of
_authed_api_wrapper does not catch, so no refresh and no retry happen. -/
theorem c1_refresh_retry_never_fires :
    (getStudents stAuthed c1Env).result =
      .error (.smartTagApiError "Something really wrong happened! - invalid or expired credentials")
    ∧ (getStudents stAuthed c1Env).requests.length = 1
    ∧ (getStudents stAuthed c1Env).state = stAuthed := by
  exact ⟨rfl, rfl, rfl⟩

/-- C2 (code behavior): a 401 or 403 response is raised as the generic
SmartTagApiError, not SmartTagApiAuthError (the AuthError from
_raise_response_error is caught by the except-Exception catch-all of
_api_wrapper and wrapped); 400 and 404 pass through; any other non-success
status (500 here) is raised as SmartTagApiNetworkError, not the generic
kind, because the ClientResponseError from raise_for_status is an
aiohttp.ClientError; timeouts and socket failures give NetworkError and
arbitrary other exceptions give the generic ApiError. -/
theorem c2_transport_classification_behavior :
    apiWrapper (.response { status := 401, jsonOk := true, token := none, refreshCookie := none }) =
      .error (.smartTagApiError "Something really wrong happened! - invalid or expired credentials")
    ∧ apiWrapper (.response { status := 403, jsonOk := true, token := none, refreshCookie := none }) =
      .error (.smartTagApiError "Something really wrong happened! - invalid or expired credentials")
    ∧ apiWrapper (.response { status := 500, jsonOk := true, token := none, refreshCookie := none }) =
      .error (.smartTagNetworkError "Error fetching information - raise_for_status")
    ∧ apiWrapper (.response { status := 400, jsonOk := true, token := none, refreshCookie := none }) =
      .ok { status := 400, jsonOk := true, token := none, refreshCookie := none }
    ∧ apiWrapper (.response { status := 404, jsonOk := true, token := none, refreshCookie := none }) =
      .ok { status := 404, jsonOk := true, token := none, refreshCookie := none }
    ∧ apiWrapper .raiseTimeout =
      .error (.smartTagNetworkError "Timeout error fetching information - TimeoutError")
    ∧ apiWrapper (.raiseGaierror "dns failure") =
      .error (.smartTagNetworkError "Error fetching information - dns failure")
    ∧ apiWrapper (.raiseOther "unexpected") =
      .error (.smartTagApiError "Something really wrong happened! - unexpected") := by
  exact ⟨rfl, rfl, rfl, rfl, rfl, rfl, rfl, rfl⟩

/-- C6 (counterexample): two rides of one route that differ only in
route_name and in their identity produce different aggregation output when
the input list is reversed, although the two lists are permutations of each
other: the routeName field of the single window follows the first ride of
the group. -/
theorem c6_counterexample_name_order :
    ([c6rideA, c6rideB].Perm [c6rideB, c6rideA])
    ∧ (avgRoutes [c6rideA, c6rideB]).map (Option.map Route.name) = [some "Name A"]
    ∧ (avgRoutes [c6rideB, c6rideA]).map (Option.map Route.name) = [some "Name B"]
    ∧ avgRoutes [c6rideA, c6rideB] ≠ avgRoutes [c6rideB, c6rideA] := by
  refine ⟨List.Perm.swap c6rideB c6rideA [], rfl, rfl, fun h => ?_⟩
  have h2 := congrArg (List.map (Option.map Route.name)) h
  rw [show (avgRoutes [c6rideA, c6rideB]).map (Option.map Route.name) = [some "Name A"] from rfl,
    show (avgRoutes [c6rideB, c6rideA]).map (Option.map Route.name) = [some "Name B"] from rfl] at h2
  exact absurd h2 (by decide)

/-- C7 (counterexample): with no access token held, get_students and
get_rides fail with AuthError from the client-side precondition check and
issue no HTTP request at all, contrary to the claim that the request is
still issued with the Authorization header omitted. -/
theorem c7_counterexample_no_request :
    (getStudents { access_token := none, refresh_token := none } c7Env).requests = []
    ∧ (getStudents { access_token := none, refresh_token := none } c7Env).result =
        .error (.smartTagAuthError "not authenticated")
    ∧ (getRides { access_token := none, refresh_token := none } c7Env "student1" 50).requests = []
    ∧ (getRides { access_token := none, refresh_token := none } c7Env "student1" 50).result =
        .error (.smartTagAuthError "not authenticated") := by
  exact ⟨rfl, rfl, rfl, rfl⟩

/-- C3: login puts the client into the cleared-token state before the POST,
reinterprets a 400 response as AuthError for invalid email or password, and
on any failure classified as one of the three SmartTag error kinds the
client is left with no access token and no refresh token. -/
theorem c3_login_clears_tokens (st : ClientState) (email password : String) (o : SessionOutcome) :
    (∀ r : HttpResponse, o = .response r → r.status = 400 →
      (login st email password o).result = .error (.smartTagAuthError "invalid email or password"))
    ∧ (∀ e : PyExc, (login st email password o).result = .error e → isSmartTagError e = true →
        (login st email password o).state = { access_token := none, refresh_token := none }) := by
  constructor
  · intro r ho h400
    subst ho
    simp [login, apiWrapper, apiWrapperTry, raiseResponseError, h400]
  · intro e he _hkind
    rcases h : apiWrapper o with e0 | r
    · simp [login, h]
    · by_cases h400 : r.status = 400
      · simp [login, h, h400]
      · by_cases hjson : r.jsonOk = false
        · simp [login, h, h400, hjson]
        · rcases htok : r.token with _ | t
          · rcases hcookie : r.refreshCookie with _ | c
            · simp [login, h, h400, hjson, htok, hcookie]
            · -- KeyError branch with cookie set: the error is not a SmartTag kind
              exfalso
              simp [login, h, h400, hjson, htok, hcookie] at he
              subst he
              simp [isSmartTagError] at _hkind
          · -- success branch: no error is raised
            exfalso
            rcases hcookie : r.refreshCookie with _ | c <;>
              simp [login, h, h400, hjson, htok, hcookie] at he

/-- Every run of _authed_api_wrapper issues the original request first, with
the Authorization header derived from the token state at entry. -/
theorem authedApiWrapper_first_request (st : ClientState) (env : Nat → SessionOutcome)
    (method path : String) (body query : List (String × String)) :
    (authedApiWrapper st env method path body query).requests.head? =
      some { method := method, path := path, authHeader := bearerHeader st
             jsonBody := body, query := query } := by
  unfold authedApiWrapper
  rcases h : apiWrapper (env 0) with e | r
  · cases e with
    | smartTagAuthError m =>
      rcases h2 : (refreshAccessToken st (env 1)).result with e2 | u
      · simp [h, h2]
      · rcases h3 : apiWrapper (env 2) with e3 | r2
        · simp [h, h2, h3]
        · simp [h, h2, h3]
    | timeoutError => simp [h]
    | clientError m => simp [h]
    | gaierror m => simp [h]
    | smartTagApiError m => simp [h]
    | smartTagNetworkError m => simp [h]
    | otherError m => simp [h]
  · simp [h]

/-- C7 (amended): a get_students or get_rides call made while no access
token is held raises AuthError from the client-side precondition check and
issues no HTTP request at all; inside _authed_api_wrapper itself the
Authorization header is omitted exactly when no token is held, so its first
request carries no Authorization header in that state. -/
theorem c7_precondition_guard (st : ClientState) (env : Nat → SessionOutcome)
    (studentId : String) (limit : Int) (h : st.access_token = none) :
    (getStudents st env).result = .error (.smartTagAuthError "not authenticated")
    ∧ (getStudents st env).requests = []
    ∧ (getRides st env studentId limit).result = .error (.smartTagAuthError "not authenticated")
    ∧ (getRides st env studentId limit).requests = []
    ∧ ∀ method path body query,
        (authedApiWrapper st env method path body query).requests.head? =
          some { method := method, path := path, authHeader := none
                 jsonBody := body, query := query } := by
  have hb : bearerHeader st = none := by simp [bearerHeader, h]
  refine ⟨?_, ?_, ?_, ?_, ?_⟩
  · simp [getStudents, h]
  · simp [getStudents, h]
  · simp [getRides, h]
  · simp [getRides, h]
  · intro method path body query
    have ht := authedApiWrapper_first_request st env method path body query
    rw [hb] at ht
    exact ht

/-- C7 (amended) at a concrete input: a client holding only a refresh token
fails both reads client-side without any HTTP traffic, and the first request
of the authenticated wrapper in that state has no Authorization header. -/
theorem c7_precondition_guard_witness :
    (getStudents { access_token := none, refresh_token := some "rt" } c7Env).result =
      .error (.smartTagAuthError "not authenticated")
    ∧ (getStudents { access_token := none, refresh_token := some "rt" } c7Env).requests = []
    ∧ (getRides { access_token := none, refresh_token := some "rt" } c7Env "student1" 50).result =
      .error (.smartTagAuthError "not authenticated")
    ∧ (getRides { access_token := none, refresh_token := some "rt" } c7Env "student1" 50).requests = []
    ∧ (authedApiWrapper { access_token := none, refresh_token := some "rt" } c7Env
        "GET" "parent/all-students" [] []).requests.head? =
      some { method := "GET", path := "parent/all-students", authHeader := none
             jsonBody := [], query := [] } := by
  have h := c7_precondition_guard { access_token := none, refresh_token := some "rt" }
    c7Env "student1" 50 rfl
  exact ⟨h.1, h.2.1, h.2.2.1, h.2.2.2.1, h.2.2.2.2 "GET" "parent/all-students" [] []⟩

/-- C10: refresh_access_token never clears credentials — on the
missing-token precondition, on every transport error and on a non-success
response (the failure paths delivering one of the three SmartTag error
kinds) the token state is exactly what it was before; on success the access
token is overwritten from the response body and the refresh token is
overwritten only when the response carries a refreshToken cookie, retaining
its previous value otherwise. -/
theorem c10_refresh_frame (st : ClientState) (o : SessionOutcome) :
    (∀ e : PyExc, (refreshAccessToken st o).result = .error e → isSmartTagError e = true →
        (refreshAccessToken st o).state = st)
    ∧ (∀ r : HttpResponse, o = .response r → (refreshAccessToken st o).result = .ok () →
        ∃ t, r.token = some t
          ∧ (refreshAccessToken st o).state.access_token = some t
          ∧ (refreshAccessToken st o).state.refresh_token =
              (match r.refreshCookie with
               | some c => some (unquote c)
               | none => st.refresh_token)) := by
  rcases st with ⟨a, rt⟩
  rcases a with _ | tok
  · exact ⟨fun e _ _ => by simp [refreshAccessToken], fun r _ hok => by simp [refreshAccessToken] at hok⟩
  rcases rt with _ | rtok
  · exact ⟨fun e _ _ => by simp [refreshAccessToken], fun r _ hok => by simp [refreshAccessToken] at hok⟩
  rcases h : apiWrapper o with e0 | r0
  · constructor
    · intro e _ _
      simp [refreshAccessToken, h]
    · intro r _ hok
      simp [refreshAccessToken, h] at hok
  · by_cases hs : 400 ≤ r0.status
    · constructor
      · intro e _ _
        simp [refreshAccessToken, h, hs]
      · intro r _ hok
        simp [refreshAccessToken, h, hs] at hok
    · by_cases hj : r0.jsonOk = false
      · constructor
        · intro e _ _
          simp [refreshAccessToken, h, hs, hj]
        · intro r _ hok
          simp [refreshAccessToken, h, hs, hj] at hok
      · rcases htok : r0.token with _ | t
        · constructor
          · intro e he hkind
            rcases hc : r0.refreshCookie with _ | c
            · simp [refreshAccessToken, h, hs, hj, htok, hc]
            · exfalso
              simp [refreshAccessToken, h, hs, hj, htok, hc] at he
              subst he
              simp [isSmartTagError] at hkind
          · intro r _ hok
            simp [refreshAccessToken, h, hs, hj, htok] at hok
        · constructor
          · intro e he _
            exfalso
            rcases hc : r0.refreshCookie with _ | c <;>
              simp [refreshAccessToken, h, hs, hj, htok, hc] at he
          · intro r hr hok
            subst hr
            have hr0 : r0 = r := by
              rcases h2 : raiseResponseError r.status with _ | e2
              · have h3 : apiWrapper (.response r) = .ok r := by
                  simp [apiWrapper, apiWrapperTry, h2]
                rw [h3] at h
                exact (Except.ok.inj h).symm
              · have h3 : apiWrapper (.response r) = .error (wrapException e2) := by
                  simp [apiWrapper, apiWrapperTry, h2]
                rw [h3] at h
                exact absurd h (by simp)
            subst hr0
            refine ⟨t, htok, ?_, ?_⟩ <;>
              rcases hc : r0.refreshCookie with _ | c <;>
                simp [refreshAccessToken, h, hs, hj, htok, hc]

/-- C10 at concrete inputs: a 404 refresh response leaves both tokens
untouched while raising AuthError, and a success response carrying a new
token but no cookie overwrites only the access token. -/
theorem c10_refresh_frame_witness :
    (refreshAccessToken stAuthed
        (.response { status := 404, jsonOk := true, token := none, refreshCookie := none })).state = stAuthed
    ∧ (refreshAccessToken stAuthed
        (.response { status := 200, jsonOk := true, token := some "t2", refreshCookie := none })).state.access_token = some "t2"
    ∧ (refreshAccessToken stAuthed
        (.response { status := 200, jsonOk := true, token := some "t2", refreshCookie := none })).state.refresh_token = some "oldrefresh" := by
  have h1 := (c10_refresh_frame stAuthed
    (.response { status := 404, jsonOk := true, token := none, refreshCookie := none })).1
    (.smartTagAuthError "need reauthentication") rfl rfl
  have h2 := (c10_refresh_frame stAuthed
    (.response { status := 200, jsonOk := true, token := some "t2", refreshCookie := none })).2
    { status := 200, jsonOk := true, token := some "t2", refreshCookie := none } rfl rfl
  obtain ⟨t, hts, hacc, href⟩ := h2
  have ht : t = "t2" := by simpa using hts.symm
  subst ht
  exact ⟨h1, hacc, href⟩

/-- C3 at a concrete input: a 400 login response on a client that held both
tokens yields AuthError and leaves both token fields cleared. -/
theorem c3_login_clears_tokens_witness :
    (login stAuthed "user" "pw"
        (.response { status := 400, jsonOk := true, token := none, refreshCookie := none })).result =
      .error (.smartTagAuthError "invalid email or password")
    ∧ (login stAuthed "user" "pw"
        (.response { status := 400, jsonOk := true, token := none, refreshCookie := none })).state =
      { access_token := none, refresh_token := none } := by
  have h := c3_login_clears_tokens stAuthed "user" "pw"
    (.response { status := 400, jsonOk := true, token := none, refreshCookie := none })
  have h1 := h.1 { status := 400, jsonOk := true, token := none, refreshCookie := none } rfl rfl
  exact ⟨h1, h.2 (.smartTagAuthError "invalid email or password") h1 rfl⟩

/-- The running minimum accumulator of the loop is a plain fold of min,
independent of the enumerate index. -/
theorem aggLoop_embark_start (l : List Ride) : ∀ (i : Nat) (st : AggState),
    (aggLoop i st l).embark_start_min =
      l.foldl (fun a r => min a (timeOfDay r.start.time)) st.embark_start_min := by
  induction l with
  | nil => intro i st; rfl
  | cons r rest ih => intro i st; simp [aggLoop, ih, aggStep]

/-- The embark-end running maximum is a plain fold of max. -/
theorem aggLoop_embark_end (l : List Ride) : ∀ (i : Nat) (st : AggState),
    (aggLoop i st l).embark_end_max =
      l.foldl (fun a r => max a (timeOfDay (r.start.time + 5 * 60))) st.embark_end_max := by
  induction l with
  | nil => intro i st; rfl
  | cons r rest ih => intro i st; simp [aggLoop, ih, aggStep]

/-- The debark-end running maximum is a plain fold of max. -/
theorem aggLoop_debark_end (l : List Ride) : ∀ (i : Nat) (st : AggState),
    (aggLoop i st l).debark_end_max =
      l.foldl (fun a r => max a (timeOfDay (r.end_.time + 10 * 60))) st.debark_end_max := by
  induction l with
  | nil => intro i st; rfl
  | cons r rest ih => intro i st; simp [aggLoop, ih, aggStep]

/-- A fold of min never exceeds its initial value. -/
theorem foldl_min_le_init {α : Type} (f : α → Int) (l : List α) :
    ∀ a : Int, l.foldl (fun b x => min b (f x)) a ≤ a := by
  induction l with
  | nil => intro a; simp
  | cons x xs ih =>
    intro a
    simpa using le_trans (ih (min a (f x))) (min_le_left _ _)

/-- A fold of min is bounded by every member. -/
theorem foldl_min_le_mem {α : Type} (f : α → Int) :
    ∀ (l : List α) (x : α), x ∈ l → ∀ a : Int, l.foldl (fun b y => min b (f y)) a ≤ f x := by
  intro l
  induction l with
  | nil => intro x hx; cases hx
  | cons y ys ih =>
    intro x hx a
    rcases List.mem_cons.mp hx with h | h
    · subst h
      simpa using le_trans (foldl_min_le_init f ys (min a (f x))) (min_le_right _ _)
    · simpa using ih x h (min a (f y))

/-- A fold of max is at least its initial value. -/
theorem le_foldl_max_init {α : Type} (f : α → Int) (l : List α) :
    ∀ a : Int, a ≤ l.foldl (fun b x => max b (f x)) a := by
  induction l with
  | nil => intro a; simp
  | cons x xs ih =>
    intro a
    simpa using le_trans (le_max_left a (f x)) (ih (max a (f x)))

/-- A fold of max dominates every member. -/
theorem le_foldl_max_mem {α : Type} (f : α → Int) :
    ∀ (l : List α) (x : α), x ∈ l → ∀ a : Int, f x ≤ l.foldl (fun b y => max b (f y)) a := by
  intro l
  induction l with
  | nil => intro x hx; cases hx
  | cons y ys ih =>
    intro x hx a
    rcases List.mem_cons.mp hx with h | h
    · subst h
      simpa using le_trans (le_max_right a (f x)) (le_foldl_max_init f ys (max a (f x)))
    · simpa using ih x h (max a (f y))

/-- Closed form of the incremental Knuth mean: the accumulator weighted by
the processed count equals the weighted initial value plus the sum of the
durations seen. -/
theorem aggLoop_length_secs (l : List Ride) : ∀ (i : Nat) (st : AggState),
    (aggLoop i st l).length_secs * ((i : Rat) + l.length) =
      st.length_secs * i + (l.map fun r => ((rideDurSecs r : Int) : Rat)).sum := by
  induction l with
  | nil =>
    intro i st
    simp only [aggLoop, List.length_nil, List.map_nil, List.sum_nil, Nat.cast_zero]
    ring
  | cons r rest ih =>
    intro i st
    simp only [aggLoop, List.length_cons, List.map_cons, List.sum_cons]
    have h := ih (i + 1) (aggStep i st r)
    have hne : ((i : Rat) + 1) ≠ 0 := by positivity
    have hstep : (aggStep i st r).length_secs * ((i : Rat) + 1) =
        st.length_secs * i + ((rideDurSecs r : Int) : Rat) := by
      simp only [aggStep]
      field_simp
      ring
    push_cast at h ⊢
    linear_combination h + hstep

/-- On a nonempty list the aggregator returns a window whose length field is
the arithmetic mean of the per-ride durations in seconds (each reduced
mod 24 h by the timedelta seconds field), converted to minutes. -/
theorem average_length_mean (l : List Ride) (hl : l ≠ []) :
    ∃ w, average_route_polling_data l = some w ∧
      w.length = ((l.map fun r => ((rideDurSecs r : Int) : Rat)).sum / (l.length : Rat)) / 60 := by
  rcases l with _ | ⟨r0, rest⟩
  · exact absurd rfl hl
  refine ⟨_, rfl, ?_⟩
  show (aggLoop 0 initAggState (r0 :: rest)).length_secs / 60 = _
  have h := aggLoop_length_secs (r0 :: rest) 0 initAggState
  have hlen : (((r0 :: rest).length : Nat) : Rat) ≠ 0 :=
    Nat.cast_ne_zero.mpr (by simp)
  simp only [Nat.cast_zero, zero_add, mul_zero, zero_mul] at h
  have hls : (aggLoop 0 initAggState (r0 :: rest)).length_secs =
      ((r0 :: rest).map fun r => ((rideDurSecs r : Int) : Rat)).sum / (((r0 :: rest).length : Nat) : Rat) :=
    (eq_div_iff hlen).mpr h
  rw [hls]

/-- addRide either leaves the key list unchanged or appends the new key. -/
theorem addRide_keys (gs : List (Int × List Ride)) (r : Ride) :
    (addRide gs r).map Prod.fst =
      if r.route_id ∈ gs.map Prod.fst then gs.map Prod.fst
      else gs.map Prod.fst ++ [r.route_id] := by
  induction gs with
  | nil => simp [addRide]
  | cons g rest ih =>
    rcases g with ⟨k, rs⟩
    by_cases hk : k = r.route_id
    · simp [addRide, hk]
    · by_cases hm : r.route_id ∈ rest.map Prod.fst <;>
        simp [addRide, hk, ih, hm, Ne.symm hk]

/-- addRide preserves distinctness of the group keys. -/
theorem addRide_nodup (gs : List (Int × List Ride)) (r : Ride)
    (h : (gs.map Prod.fst).Nodup) : ((addRide gs r).map Prod.fst).Nodup := by
  rw [addRide_keys]
  by_cases hm : r.route_id ∈ gs.map Prod.fst
  · simpa [hm] using h
  · simp [hm, List.nodup_append, h]

/-- addRide preserves the invariant that every member of a group carries the
group key as route_id. -/
theorem addRide_members (gs : List (Int × List Ride)) (r : Ride)
    (hg : ∀ g ∈ gs, ∀ x ∈ g.2, x.route_id = g.1) :
    ∀ g ∈ addRide gs r, ∀ x ∈ g.2, x.route_id = g.1 := by
  induction gs with
  | nil =>
    intro g hgmem x hx
    simp [addRide] at hgmem
    subst hgmem
    simp at hx
    subst hx
    rfl
  | cons g0 rest ih =>
    rcases g0 with ⟨k, rs⟩
    by_cases hk : k = r.route_id
    · intro g hgmem x hx
      simp [addRide, hk] at hgmem
      rcases hgmem with h | h
      · subst h
        simp at hx
        rcases hx with hx | hx
        · exact hk ▸ hg ⟨k, rs⟩ (by simp) x (by simpa using hx)
        · subst hx
          rfl
      · exact hg g (by simp [h]) x hx
    · intro g hgmem x hx
      simp [addRide, hk] at hgmem
      rcases hgmem with h | h
      · subst h
        exact hg ⟨k, rs⟩ (by simp) x (by simpa using hx)
      · exact ih (fun g2 hg2 => hg g2 (by simp [hg2])) g h x hx

/-- addRide preserves nonemptiness of every group. -/
theorem addRide_nonempty (gs : List (Int × List Ride)) (r : Ride)
    (hg : ∀ g ∈ gs, g.2 ≠ []) : ∀ g ∈ addRide gs r, g.2 ≠ [] := by
  induction gs with
  | nil =>
    intro g hgmem
    simp [addRide] at hgmem
    subst hgmem
    simp
  | cons g0 rest ih =>
    rcases g0 with ⟨k, rs⟩
    by_cases hk : k = r.route_id
    · intro g hgmem
      simp [addRide, hk] at hgmem
      rcases hgmem with h | h
      · subst h; simp
      · exact hg g (by simp [h])
    · intro g hgmem
      simp [addRide, hk] at hgmem
      rcases hgmem with h | h
      · subst h
        exact hg ⟨k, rs⟩ (by simp)
      · exact ih (fun g2 hg2 => hg g2 (by simp [hg2])) g h

/-- The rides stored across all groups after addRide are the previous ones
plus the new ride. -/
theorem addRide_join (gs : List (Int × List Ride)) (r : Ride) :
    ((addRide gs r).map Prod.snd).flatten.Perm ((gs.map Prod.snd).flatten ++ [r]) := by
  induction gs with
  | nil => simp [addRide]
  | cons g0 rest ih =>
    rcases g0 with ⟨k, rs⟩
    by_cases hk : k = r.route_id
    · subst hk
      simp only [addRide, if_pos, List.map_cons, List.flatten_cons]
      rw [List.append_assoc, List.append_assoc]
      exact List.Perm.append_left rs (List.perm_append_comm)
    · simp only [addRide, if_neg hk, List.map_cons, List.flatten_cons]
      rw [List.append_assoc]
      exact List.Perm.append_left rs ih

/-- Folding addRide over a ride list: key distinctness is preserved. -/
theorem foldl_addRide_nodup (l : List Ride) :
    ∀ gs, (gs.map Prod.fst).Nodup → ((l.foldl addRide gs).map Prod.fst).Nodup := by
  induction l with
  | nil => intro gs h; simpa using h
  | cons r rest ih =>
    intro gs h
    exact ih (addRide gs r) (addRide_nodup gs r h)

/-- Folding addRide: the member-key invariant is preserved. -/
theorem foldl_addRide_members (l : List Ride) :
    ∀ gs, (∀ g ∈ gs, ∀ x ∈ g.2, x.route_id = g.1) →
      ∀ g ∈ l.foldl addRide gs, ∀ x ∈ g.2, x.route_id = g.1 := by
  induction l with
  | nil => intro gs h; simpa using h
  | cons r rest ih =>
    intro gs h
    exact ih (addRide gs r) (addRide_members gs r h)

/-- Folding addRide: nonemptiness of every group is preserved. -/
theorem foldl_addRide_nonempty (l : List Ride) :
    ∀ gs, (∀ g ∈ gs, g.2 ≠ []) → ∀ g ∈ l.foldl addRide gs, g.2 ≠ [] := by
  induction l with
  | nil => intro gs h; simpa using h
  | cons r rest ih =>
    intro gs h
    exact ih (addRide gs r) (addRide_nonempty gs r h)

/-- Folding addRide: the grouped rides are a permutation of the previous
contents followed by the folded rides. -/
theorem foldl_addRide_join (l : List Ride) :
    ∀ gs, ((l.foldl addRide gs).map Prod.snd).flatten.Perm ((gs.map Prod.snd).flatten ++ l) := by
  induction l with
  | nil => intro gs; simp
  | cons r rest ih =>
    intro gs
    have h1 := ih (addRide gs r)
    have h2 : ((addRide gs r).map Prod.snd).flatten.Perm ((gs.map Prod.snd).flatten ++ [r]) :=
      addRide_join gs r
    have h3 := h2.append_right rest
    rw [List.append_assoc] at h3
    simp only [List.singleton_append] at h3
    exact h1.trans h3

/-- C4: grouping produces exactly one group per distinct routeId (the keys
are pairwise distinct and the grouped rides are a permutation of the input,
so every ride lands in exactly one group and an empty input produces no
groups), and the window computed for each group satisfies: embarkStart is
at most every member start time-of-day, embarkEnd is at least every member
start-plus-5-minutes time-of-day, debarkEnd is at least every member
end-plus-10-minutes time-of-day, every member carries the group routeId,
and routeId/routeName of the window are those of a member of the group. -/
theorem c4_grouping_and_window_bounds (rides : List Ride) :
    ((groupRides rides).map Prod.fst).Nodup
    ∧ (((groupRides rides).map Prod.snd).flatten).Perm rides
    ∧ (rides = [] → groupRides rides = [])
    ∧ ∀ g ∈ groupRides rides, ∃ w : Route,
        average_route_polling_data g.2 = some w
        ∧ (∀ r ∈ g.2, r.route_id = g.1
            ∧ w.embark_start ≤ timeOfDay r.start.time
            ∧ timeOfDay (r.start.time + 5 * 60) ≤ w.embark_end
            ∧ timeOfDay (r.end_.time + 10 * 60) ≤ w.debark_end)
        ∧ ∃ r0 ∈ g.2, w.id = r0.route_id ∧ w.name = r0.route_name := by
  refine ⟨foldl_addRide_nodup rides [] (by simp), ?_, ?_, ?_⟩
  · simpa using foldl_addRide_join rides []
  · intro h; subst h; rfl
  · intro g hg
    have hne : g.2 ≠ [] := foldl_addRide_nonempty rides [] (by simp) g hg
    have hmem : ∀ x ∈ g.2, x.route_id = g.1 :=
      foldl_addRide_members rides [] (by simp) g hg
    rcases hgl : g.2 with _ | ⟨r0, rest⟩
    · exact absurd hgl hne
    refine ⟨_, rfl, ?_, ?_⟩
    · intro r hr
      refine ⟨hmem r (by rw [hgl]; exact hr), ?_, ?_, ?_⟩
      · show (aggLoop 0 initAggState (r0 :: rest)).embark_start_min ≤ _
        rw [aggLoop_embark_start]
        exact foldl_min_le_mem (fun r => timeOfDay r.start.time) (r0 :: rest) r hr _
      · show _ ≤ (aggLoop 0 initAggState (r0 :: rest)).embark_end_max
        rw [aggLoop_embark_end]
        exact le_foldl_max_mem (fun r => timeOfDay (r.start.time + 5 * 60)) (r0 :: rest) r hr _
      · show _ ≤ (aggLoop 0 initAggState (r0 :: rest)).debark_end_max
        rw [aggLoop_debark_end]
        exact le_foldl_max_mem (fun r => timeOfDay (r.end_.time + 10 * 60)) (r0 :: rest) r hr _
    · exact ⟨r0, by simp, rfl, rfl⟩

/-- C4 at a concrete input: two rides on two distinct routes. -/
theorem c4_grouping_witness :
    ((groupRides [c5ride1, c4ride3]).map Prod.fst).Nodup
    ∧ (((groupRides [c5ride1, c4ride3]).map Prod.snd).flatten).Perm [c5ride1, c4ride3]
    ∧ ([c5ride1, c4ride3] = ([] : List Ride) → groupRides [c5ride1, c4ride3] = [])
    ∧ ∀ g ∈ groupRides [c5ride1, c4ride3], ∃ w : Route,
        average_route_polling_data g.2 = some w
        ∧ (∀ r ∈ g.2, r.route_id = g.1
            ∧ w.embark_start ≤ timeOfDay r.start.time
            ∧ timeOfDay (r.start.time + 5 * 60) ≤ w.embark_end
            ∧ timeOfDay (r.end_.time + 10 * 60) ≤ w.debark_end)
        ∧ ∃ r0 ∈ g.2, w.id = r0.route_id ∧ w.name = r0.route_name :=
  c4_grouping_and_window_bounds [c5ride1, c4ride3]

/-- C8: on the empty list the aggregator produces no result (the unguarded
data[0] indexing fails), on every nonempty list it produces a window, and
the grouping step never constructs an empty group, so the aggregator is
only ever called on nonempty lists. -/
theorem c8_empty_input_unguarded (rides l : List Ride) (hl : l ≠ []) :
    average_route_polling_data [] = none
    ∧ (∃ w, average_route_polling_data l = some w)
    ∧ ∀ g ∈ groupRides rides, g.2 ≠ [] ∧ ∃ w, average_route_polling_data g.2 = some w := by
  refine ⟨rfl, ?_, ?_⟩
  · rcases l with _ | ⟨r0, rest⟩
    · exact absurd rfl hl
    · exact ⟨_, rfl⟩
  · intro g hg
    have hne : g.2 ≠ [] := foldl_addRide_nonempty rides [] (by simp) g hg
    rcases hgl : g.2 with _ | ⟨r0, rest⟩
    · exact absurd hgl hne
    · exact ⟨by simp [hgl], _, rfl⟩

/-- C8 at a concrete input. -/
theorem c8_empty_input_witness :
    average_route_polling_data [] = none
    ∧ (∃ w, average_route_polling_data [c4ride3] = some w)
    ∧ ∀ g ∈ groupRides [c4ride3], g.2 ≠ [] ∧ ∃ w, average_route_polling_data g.2 = some w :=
  c8_empty_input_unguarded [c4ride3] [c4ride3] (by simp)

/-- C9: each ride contributes the seconds field of the timedelta end minus
start, which is the signed whole-second duration reduced modulo 24 hours:
it equals the true duration exactly when that duration lies in [0, 24h),
and a ride whose end precedes its start by d seconds contributes 86400 - d;
averageLengthMinutes is the mean of these mod-24h contributions. -/
theorem c9_duration_mod_24h (r : Ride) (l : List Ride) (hl : l ≠ []) :
    (0 ≤ r.end_.time - r.start.time → r.end_.time - r.start.time < 86400 →
        rideDurSecs r = r.end_.time - r.start.time)
    ∧ (r.end_.time < r.start.time → r.start.time - r.end_.time < 86400 →
        rideDurSecs r = 86400 - (r.start.time - r.end_.time))
    ∧ ∃ w, average_route_polling_data l = some w ∧
        w.length = ((l.map fun x => ((rideDurSecs x : Int) : Rat)).sum / (l.length : Rat)) / 60 := by
  refine ⟨?_, ?_, average_length_mean l hl⟩
  · intro h1 h2
    unfold rideDurSecs
    omega
  · intro h1 h2
    unfold rideDurSecs
    omega

/-- C9 at a concrete input: a ride ending 1200 seconds before its start
contributes 85200 seconds, and the one-ride average reflects it. -/
theorem c9_duration_witness :
    rideDurSecs c9ride = 86400 - (c9ride.start.time - c9ride.end_.time)
    ∧ ∃ w, average_route_polling_data [c9ride] = some w ∧
        w.length = (([c9ride].map fun x => ((rideDurSecs x : Int) : Rat)).sum / (([c9ride].length : Nat) : Rat)) / 60 := by
  have h := c9_duration_mod_24h c9ride [c9ride] (by simp)
  exact ⟨h.2.1 (by norm_num [c9ride, mkRide]) (by norm_num [c9ride, mkRide]), h.2.2⟩

/-- findGroup after addRide: the new ride lands at the end of its own
group; every other lookup is unchanged. -/
theorem findGroup_addRide (gs : List (Int × List Ride)) (r : Ride) (k : Int) :
    findGroup k (addRide gs r) =
      if r.route_id = k then some ((findGroup k gs).getD [] ++ [r])
      else findGroup k gs := by
  induction gs with
  | nil =>
    by_cases h : r.route_id = k <;> simp [addRide, findGroup, h]
  | cons g rest ih =>
    rcases g with ⟨k2, rs⟩
    by_cases h2 : k2 = r.route_id
    · subst h2
      by_cases h3 : r.route_id = k
      · subst h3
        simp [addRide, findGroup]
      · simp [addRide, findGroup, h3]
    · by_cases h3 : k2 = k
      · subst h3
        have h4 : ¬ r.route_id = k2 := fun h => h2 h.symm
        simp [addRide, findGroup, h2, h4]
      · simp [addRide, findGroup, h2, h3, ih]

/-- findGroup after folding addRide: the group for a key collects exactly
the rides filtered on that key, appended to whatever the accumulator held. -/
theorem findGroup_foldl (l : List Ride) : ∀ (gs : List (Int × List Ride)) (k : Int),
    findGroup k (l.foldl addRide gs) =
      if l.filter (fun r => r.route_id = k) = [] then findGroup k gs
      else some ((findGroup k gs).getD [] ++ l.filter (fun r => r.route_id = k)) := by
  induction l with
  | nil => intro gs k; simp
  | cons r rest ih =>
    intro gs k
    simp only [List.foldl_cons]
    rw [ih (addRide gs r) k, findGroup_addRide]
    by_cases h : r.route_id = k
    · by_cases h2 : rest.filter (fun r => r.route_id = k) = [] <;>
        simp [List.filter_cons, h, h2, List.append_assoc]
    · simp [List.filter_cons, h]

/-- The group stored for a key is exactly the input filtered on that key,
or absent when no ride has the key. -/
theorem findGroup_groupRides (l : List Ride) (k : Int) :
    findGroup k (groupRides l) =
      if l.filter (fun r => r.route_id = k) = [] then none
      else some (l.filter (fun r => r.route_id = k)) := by
  rw [groupRides, findGroup_foldl l [] k]
  simp [findGroup]

/-- findGroup misses exactly the keys outside the key list. -/
theorem findGroup_eq_none (gs : List (Int × List Ride)) (k : Int) :
    findGroup k gs = none ↔ k ∉ gs.map Prod.fst := by
  induction gs with
  | nil => simp [findGroup]
  | cons g rest ih =>
    rcases g with ⟨k2, rs⟩
    by_cases h : k2 = k
    · subst h
      simp [findGroup]
    · simp only [findGroup, if_neg h, List.map_cons, List.mem_cons, not_or]
      rw [ih]
      constructor
      · intro hn
        exact ⟨fun hh => h hh.symm, hn⟩
      · exact And.right

/-- A key appears among the groups exactly when some input ride carries it. -/
theorem mem_groupKeys_iff (l : List Ride) (a : Int) :
    a ∈ (groupRides l).map Prod.fst ↔ l.filter (fun r => r.route_id = a) ≠ [] := by
  have h := findGroup_groupRides l a
  constructor
  · intro hm hfil
    rw [hfil] at h
    simp only [if_pos rfl] at h
    exact (findGroup_eq_none _ _).mp h hm
  · intro hfil
    by_contra hm
    have hnone := (findGroup_eq_none (groupRides l) a).mpr hm
    rw [h] at hnone
    simp [hfil] at hnone

/-- The whole loop state is invariant under permutation of the ride list:
the three extrema are folds of commutative operations and the incremental
mean equals sum over count, all order-independent over exact arithmetic. -/
theorem aggLoop_perm {g₁ g₂ : List Ride} (hp : g₁.Perm g₂) :
    aggLoop 0 initAggState g₁ = aggLoop 0 initAggState g₂ := by
  have e1 : (aggLoop 0 initAggState g₁).embark_start_min =
      (aggLoop 0 initAggState g₂).embark_start_min := by
    rw [aggLoop_embark_start, aggLoop_embark_start]
    exact hp.foldl_eq'
      (fun x _ y _ z => min_right_comm z (timeOfDay x.start.time) (timeOfDay y.start.time)) _
  have e2 : (aggLoop 0 initAggState g₁).embark_end_max =
      (aggLoop 0 initAggState g₂).embark_end_max := by
    rw [aggLoop_embark_end, aggLoop_embark_end]
    exact hp.foldl_eq'
      (fun x _ y _ z =>
        Max.right_comm z (timeOfDay (x.start.time + 5 * 60)) (timeOfDay (y.start.time + 5 * 60))) _
  have e3 : (aggLoop 0 initAggState g₁).debark_end_max =
      (aggLoop 0 initAggState g₂).debark_end_max := by
    rw [aggLoop_debark_end, aggLoop_debark_end]
    exact hp.foldl_eq'
      (fun x _ y _ z =>
        Max.right_comm z (timeOfDay (x.end_.time + 10 * 60)) (timeOfDay (y.end_.time + 10 * 60))) _
  have e4 : (aggLoop 0 initAggState g₁).length_secs =
      (aggLoop 0 initAggState g₂).length_secs := by
    by_cases hnil : g₁ = []
    · subst hnil
      rw [hp.symm.eq_nil]
    · have hlen : g₂.length = g₁.length := hp.length_eq.symm
      have hsum : (g₁.map fun r => ((rideDurSecs r : Int) : Rat)).sum =
          (g₂.map fun r => ((rideDurSecs r : Int) : Rat)).sum :=
        (hp.map _).sum_eq
      have h1 := aggLoop_length_secs g₁ 0 initAggState
      have h2 := aggLoop_length_secs g₂ 0 initAggState
      simp only [Nat.cast_zero, zero_add, mul_zero, zero_mul] at h1 h2
      rw [hlen, ← hsum] at h2
      have hne : ((g₁.length : Nat) : Rat) ≠ 0 :=
        Nat.cast_ne_zero.mpr (fun h => hnil (List.length_eq_zero.mp h))
      exact mul_right_cancel₀ hne (h1.trans h2.symm)
  show (⟨(aggLoop 0 initAggState g₁).embark_start_min, (aggLoop 0 initAggState g₁).embark_end_max,
      (aggLoop 0 initAggState g₁).debark_end_max, (aggLoop 0 initAggState g₁).length_secs⟩ : AggState) =
    ⟨(aggLoop 0 initAggState g₂).embark_start_min, (aggLoop 0 initAggState g₂).embark_end_max,
      (aggLoop 0 initAggState g₂).debark_end_max, (aggLoop 0 initAggState g₂).length_secs⟩
  rw [e1, e2, e3, e4]

/-- C6 (amended): grouping plus per-group averaging is order-independent up
to the output order of windows and up to the routeName field: for every
permutation of the ride list and every routeId, the window computed for
that routeId agrees on embarkStart, embarkEnd, averageLengthMinutes (exact
over rationals), debarkEnd and routeId; the routeName also agrees whenever
all rides of that routeId share one route name; and the produced key sets
are permutations of each other. -/
theorem c6_order_independence (l₁ l₂ : List Ride) (hp : l₁.Perm l₂) (k : Int) :
    (windowFor k l₁).map routeCore = (windowFor k l₂).map routeCore
    ∧ ((∀ r1 ∈ l₁, ∀ r2 ∈ l₁, r1.route_id = k → r2.route_id = k →
          r1.route_name = r2.route_name) →
        windowFor k l₁ = windowFor k l₂)
    ∧ ((groupRides l₁).map Prod.fst).Perm ((groupRides l₂).map Prod.fst) := by
  have hfp : (l₁.filter fun r => r.route_id = k).Perm (l₂.filter fun r => r.route_id = k) :=
    hp.filter _
  have hw1 : windowFor k l₁ = if (l₁.filter fun r => r.route_id = k) = [] then none
      else average_route_polling_data (l₁.filter fun r => r.route_id = k) := by
    rw [windowFor, findGroup_groupRides]
    by_cases h : (l₁.filter fun r => r.route_id = k) = [] <;> simp [h]
  have hw2 : windowFor k l₂ = if (l₂.filter fun r => r.route_id = k) = [] then none
      else average_route_polling_data (l₂.filter fun r => r.route_id = k) := by
    rw [windowFor, findGroup_groupRides]
    by_cases h : (l₂.filter fun r => r.route_id = k) = [] <;> simp [h]
  have hkeys : ((groupRides l₁).map Prod.fst).Perm ((groupRides l₂).map Prod.fst) := by
    have hn₁ : ((groupRides l₁).map Prod.fst).Nodup := foldl_addRide_nodup l₁ [] (by simp)
    have hn₂ : ((groupRides l₂).map Prod.fst).Nodup := foldl_addRide_nodup l₂ [] (by simp)
    refine (List.perm_ext_iff_of_nodup hn₁ hn₂).mpr ?_
    intro a
    rw [mem_groupKeys_iff, mem_groupKeys_iff]
    have hfa := hp.filter (fun r => decide (r.route_id = a))
    constructor
    · intro h1 h2
      rw [h2] at hfa
      exact h1 hfa.eq_nil
    · intro h1 h2
      rw [h2] at hfa
      exact h1 hfa.symm.eq_nil
  rcases hcase : l₁.filter (fun r => r.route_id = k) with _ | ⟨f0, frest⟩
  · have hcase2 : l₂.filter (fun r => r.route_id = k) = [] := by
      rw [hcase] at hfp
      exact hfp.symm.eq_nil
    refine ⟨?_, fun _ => ?_, hkeys⟩ <;> rw [hw1, hw2, hcase, hcase2]
  · have hcase2 : ∃ g0 grest, l₂.filter (fun r => r.route_id = k) = g0 :: grest := by
      rcases h2 : l₂.filter (fun r => r.route_id = k) with _ | ⟨g0, grest⟩
      · rw [hcase, h2] at hfp
        exact absurd hfp.eq_nil (by simp)
      · exact ⟨g0, grest, h2⟩
    obtain ⟨g0, grest, hg⟩ := hcase2
    have hagg : aggLoop 0 initAggState (f0 :: frest) = aggLoop 0 initAggState (g0 :: grest) := by
      apply aggLoop_perm
      rw [← hcase, ← hg]
      exact hfp
    have hf0mem2 : f0 ∈ l₁.filter (fun r => r.route_id = k) := by
      rw [hcase]
      simp
    have hg0mem2 : g0 ∈ l₂.filter (fun r => r.route_id = k) := by
      rw [hg]
      simp
    have hf0 : f0.route_id = k := by simpa using (List.mem_filter.mp hf0mem2).2
    have hg0 : g0.route_id = k := by simpa using (List.mem_filter.mp hg0mem2).2
    have hf0mem : f0 ∈ l₁ := (List.mem_filter.mp hf0mem2).1
    have hg0mem : g0 ∈ l₁ := (List.mem_filter.mp (hfp.mem_iff.mpr hg0mem2)).1
    refine ⟨?_, ?_, hkeys⟩
    · rw [hw1, hw2, hcase, hg]
      simp [average_route_polling_data, routeCore, hagg, hf0, hg0]
    · intro hname
      have hnm : f0.route_name = g0.route_name := hname f0 hf0mem g0 hg0mem hf0 hg0
      rw [hw1, hw2, hcase, hg]
      simp [average_route_polling_data, hagg, hf0, hg0, hnm]

/-- C6 (amended) at a concrete input: the two-ride route-1 sample and its
reversal. -/
theorem c6_order_independence_witness :
    (windowFor 1 [c5ride1, c5ride2]).map routeCore = (windowFor 1 [c5ride2, c5ride1]).map routeCore
    ∧ ((∀ r1 ∈ [c5ride1, c5ride2], ∀ r2 ∈ [c5ride1, c5ride2], r1.route_id = 1 → r2.route_id = 1 →
          r1.route_name = r2.route_name) →
        windowFor 1 [c5ride1, c5ride2] = windowFor 1 [c5ride2, c5ride1])
    ∧ ((groupRides [c5ride1, c5ride2]).map Prod.fst).Perm
        ((groupRides [c5ride2, c5ride1]).map Prod.fst) :=
  c6_order_independence [c5ride1, c5ride2] [c5ride2, c5ride1]
    (List.Perm.swap c5ride2 c5ride1 []) 1

end SmartTag
